import Mathlib

set_option maxRecDepth 4000

/-!
A shallow embedding of `src/cacofonisk/channel.py` (the Asterisk AMI channel
state tracker) and proofs about it.

Modelling conventions:
* Python objects (`Channel` instances) live in an object store `heap` keyed by
  a small numeric object id `OId`; every Python reference (`_next`, `_prev`,
  members of `_bridged`, values stashed in `custom`, the values of the two
  channel indices) is an `OId`.  The store never shrinks: a Python object stays
  alive while referenced, so `Hangup` removes a channel only from the indices.
* Each channel's `custom` dict is a mutable cell in `customHeap`, addressed by
  `customRef`; `do_masquerade`'s `self.custom = other.custom` copies the cell
  address, which preserves Python's reference-sharing semantics.  The only key
  the source ever uses is `'raw_blind_transfer'`, so a cell is an
  `Option OId`.
* Exceptions are `Except Err`; unbounded `while` loops take explicit fuel and
  report exhaustion as the distinguished `Err.fuelExhausted` (never raised by
  Python; theorems about results are conditioned on non-exhaustion).
  `Err.dangling` marks a heap access through a reference that cannot dangle in
  Python; it is unreachable for states built through the manager's own
  operations.
* Calls to the reporter and to the overridable hooks `on_b_dial`/`on_transfer`
  are collected in an `Output` trace.  When a caught recoverable error occurs,
  Python keeps mutations made before the raise while this embedding returns the
  pre-event state; no theorem below inspects the state after a caught error,
  and in every dispatch branch no output precedes a possible raise.
-/

/-- Association-list read (Python dict lookup). -/
def alGet {κ α : Type} [BEq κ] : List (κ × α) → κ → Option α
  | [], _ => none
  | (k', v) :: t, k => if k' == k then some v else alGet t k

/-- Association-list write (Python dict item assignment; keys stay unique). -/
def alSet {κ α : Type} [BEq κ] : List (κ × α) → κ → α → List (κ × α)
  | [], k, v => [(k, v)]
  | (k', v') :: t, k, v => if k' == k then (k, v) :: t else (k', v') :: alSet t k v

/-- Association-list delete (Python `del d[k]` / `d.pop(k)`; key presence is
checked at call sites). -/
def alDel {κ α : Type} [BEq κ] : List (κ × α) → κ → List (κ × α)
  | [], _ => []
  | (k', v') :: t, k => if k' == k then t else (k', v') :: alDel t k

/-- Python `s.startswith(p)`. -/
def py_startswith (s p : String) : Bool := p.data.isPrefixOf s.data

/-- Python `s.endswith(p)`. -/
def py_endswith (s p : String) : Bool := p.data.reverse.isPrefixOf s.data.reverse

/-- Python slicing `s[i:j]` for `i ≤ j` (clamped at the string's length). -/
def py_slice (s : String) (i j : Nat) : String := ⟨(s.data.drop i).take (j - i)⟩

/-- Python `s.isdigit()` (ASCII digits; empty string is false). -/
def py_isdigit (s : String) : Bool := !s.data.isEmpty && s.data.all Char.isDigit

/-- Value of a string of decimal digits. -/
def py_int_digits (s : String) : Nat :=
  s.data.foldl (fun n c => 10 * n + (c.toNat - 48)) 0

/-- Contiguous-substring test on character lists. -/
def strContains : List Char → List Char → Bool
  | needle, [] => needle.isEmpty
  | needle, c :: rest => needle.isPrefixOf (c :: rest) || strContains needle rest

/-- Python `needle in haystack` on strings (substring membership). -/
def py_in_str (needle haystack : String) : Bool := strContains needle.data haystack.data

/-- Modelled from the spec: the external `CallerId` value type (the repository
file `cacofonisk/callerid.py` is imported by `channel.py` but is not under
`src/`).  Per spec §3.1 it is an immutable record `{code, name, number,
is_public}` supporting `replace(**overrides)`; the source constructs it with
keyword arguments and omitted fields, whose defaults are taken as `code = 0`,
`name = ""`, `number = ""`, `is_public = false`. -/
structure CallerId where
  code : Int
  name : String
  number : String
  is_public : Bool
deriving DecidableEq

/-- `CallerId.replace(code=...)` (spec §3.1). -/
def CallerId.replace_code (c : CallerId) (code : Int) : CallerId := { c with code := code }

/-- `CallerId.replace(name=..., number=..., is_public=...)` (spec §3.1). -/
def CallerId.replace_contact (c : CallerId) (name number : String) (is_public : Bool) :
    CallerId :=
  { c with name := name, number := number, is_public := is_public }

/-- Python exceptions raised by `channel.py`.  `MissingChannel`,
`MissingUniqueid` and `BridgedError` are the classes the source defines;
`keyError` is a plain dict `KeyError`, `setKeyError` a `KeyError` from
`set.remove`, `valueError` a `ValueError` from `int(...)`/`list.remove`,
`assertionError` carries a label naming the failing source assert.
`dangling` and `fuelExhausted` are embedding artifacts (see the header). -/
inductive Err where
  | missingChannel (key value : String)
  | missingUniqueid (id : String)
  | bridgedError
  | keyError (key : String)
  | setKeyError
  | valueError
  | assertionError (site : String)
  | notImplementedError
  | dangling
  | fuelExhausted
deriving DecidableEq

/-- An AMI event: a string-keyed dictionary of strings. -/
abbrev Event := List (String × String)

/-- Python `event[key]`; a missing key raises `KeyError`. -/
def evGet (e : Event) (k : String) : Except Err String :=
  match alGet e k with
  | some v => .ok v
  | none => .error (.keyError k)

/-- The payloads of `reporter.trace_msg` calls made by the source, one
constructor per format string (the textual rendering depends on the external
`CallerId.__str__` and `repr`, so messages are kept structured). -/
inductive TraceMsg where
  | connected
  | no_channels_left
  | missing_channel (key value : String) (e : Event)
  | missing_uniqueid (id : String) (e : Event)
  | bridged_error
  | b_dial_msg (caller callee : CallerId)
  | transfer_msg (party1 party2 redirector : CallerId)
deriving DecidableEq

/-- One observable call made by the core: reporter calls (`trace_ami`,
`trace_msg`, `reporter.on_event`, `reporter.on_b_dial`,
`reporter.on_transfer`) and invocations of the overridable manager hooks
`on_b_dial`/`on_transfer`.  `rep_on_transfer` is in the Reporter interface
(spec §6.2) and appears here so that statements about it can be made; whether
the core ever performs it is settled by the theorems below. -/
inductive Output where
  | trace_ami (e : Event)
  | trace_msg (m : TraceMsg)
  | reporter_on_event (e : Event)
  | on_b_dial (caller callee : CallerId)
  | on_transfer (redirector party1 party2 : CallerId)
  | rep_on_b_dial (caller callee : CallerId)
  | rep_on_transfer (redirector party1 party2 : CallerId)
deriving DecidableEq

/-- Object id: a Python reference to a `Channel` instance. -/
abbrev OId := Nat

/-- `Channel.__init__`'s attributes.  `_next`/`_prev`/`_bridged` hold
references; `customRef` is the address of the instance's `custom` dict;
`_fired_on_b_dial` is the ad-hoc attribute set by `_raw_attended_transfer`
(written, never read). -/
structure Channel where
  _name : String
  _id : String
  _next : Option OId
  _prev : Option OId
  _state : Int
  _bridged : List OId
  _accountcode : String
  _exten : String
  _callerid : CallerId
  customRef : Nat
  _fired_on_b_dial : Option CallerId
deriving DecidableEq

/-- `ChannelManager.__init__`'s state, plus the object store (`heap`,
`nextOid`) and the store of `custom` dict cells (`customHeap`,
`nextCustomRef`).  `_channels` maps channel name to a reference and
`_channels_by_uniqueid` maps unique id to a reference; `_dial_fwdlink` and
`_dial_bcklink` store unique-id strings exactly as the source does. -/
structure ChannelManager where
  heap : List (OId × Channel)
  nextOid : OId
  _channels : List (String × OId)
  _channels_by_uniqueid : List (String × OId)
  _dial_fwdlink : List (String × List String)
  _dial_bcklink : List (String × String)
  customHeap : List (Nat × Option OId)
  nextCustomRef : Nat
deriving DecidableEq

/-- Dereference a channel object. -/
def heapGet (m : ChannelManager) (oid : OId) : Option Channel := alGet m.heap oid

/-- Overwrite a channel object in place (Python attribute mutation). -/
def heapSet (m : ChannelManager) (oid : OId) (c : Channel) : ChannelManager :=
  { m with heap := alSet m.heap oid c }

/-- Read a channel's `custom` dict (its single `'raw_blind_transfer'` slot). -/
def customGet (m : ChannelManager) (ref : Nat) : Option OId :=
  match alGet m.customHeap ref with
  | some v => v
  | none => none

/-- Write a channel's `custom` dict (set or pop `'raw_blind_transfer'`). -/
def customSet (m : ChannelManager) (ref : Nat) (v : Option OId) : ChannelManager :=
  { m with customHeap := alSet m.customHeap ref v }

/-- A fresh `ChannelManager` (the `__init__` state: empty indices, empty dial
graph). -/
def emptyManager : ChannelManager :=
  { heap := [], nextOid := 0, _channels := [], _channels_by_uniqueid := [],
    _dial_fwdlink := [], _dial_bcklink := [], customHeap := [], nextCustomRef := 0 }

/-- Python `int(s)` on a decimal-digit string; anything else raises
`ValueError`. -/
def py_int (s : String) : Except Err Int :=
  if py_isdigit s then .ok (py_int_digits s) else .error .valueError

/-- `Channel.is_relevant`: a SIP channel that is not a zombie. -/
def Channel.is_relevant (c : Channel) : Bool :=
  py_startswith c._name "SIP/" && !py_endswith c._name "<ZOMBIE>"

/-- `Channel.name` property. -/
def Channel.name (c : Channel) : String := c._name

/-- `Channel.uniqueid` property. -/
def Channel.uniqueid (c : Channel) : String := c._id

/-- `Channel.accountcode` property. -/
def Channel.accountcode (c : Channel) : String := c._accountcode

/-- `Channel.callerid` property: unconditionally replace the account code when
the channel name carries one (`SIP/<9 digits>-`), zero it for other `SIP/`
names, and return the stored value for non-SIP names. -/
def Channel.callerid (c : Channel) : CallerId :=
  if py_startswith c._name "SIP/" then
    if (py_slice c._name 13 14 == "-") && py_isdigit (py_slice c._name 4 13) then
      c._callerid.replace_code (py_int_digits (py_slice c._name 4 13))
    else
      c._callerid.replace_code 0
  else c._callerid

/-- `Channel.is_bridged` property. -/
def Channel.is_bridged (c : Channel) : Bool := !c._bridged.isEmpty

/-- `Channel.bridged_channel` property: the unique bridged peer, else
`BridgedError`. -/
def Channel.bridged_channel (c : Channel) : Except Err OId :=
  match c._bridged with
  | [x] => .ok x
  | _ => .error .bridgedError

/-- `Channel.set_name`. -/
def Channel.set_name (m : ChannelManager) (oid : OId) (name : String) :
    Except Err ChannelManager :=
  match heapGet m oid with
  | none => .error .dangling
  | some c => .ok (heapSet m oid { c with _name := name })

/-- `ChannelManager._get_chan_by_uniqueid`. -/
def ChannelManager._get_chan_by_uniqueid (m : ChannelManager) (uniqueid : String) :
    Except Err OId :=
  match alGet m._channels_by_uniqueid uniqueid with
  | some oid => .ok oid
  | none => .error (.missingUniqueid uniqueid)

/-- `Channel.get_dialing_channel`: walk `_dial_bcklink` backwards, rewinding
over local links; the `while True` loop is fuelled.  The two asserts are the
source's `assert a_chan.uniqueid not in revdials` and the double-link
assert. -/
def Channel.get_dialing_channel : Nat → ChannelManager → OId → Except Err OId
  | 0, _, _ => .error .fuelExhausted
  | fuel + 1, m, oid =>
    match heapGet m oid with
    | none => .error .dangling
    | some a_chan =>
      match alGet m._dial_bcklink a_chan._id with
      | none => .ok oid
      | some dialing_uniqueid =>
        match m._get_chan_by_uniqueid dialing_uniqueid with
        | .error e => .error e
        | .ok aOid =>
          match heapGet m aOid with
          | none => .error .dangling
          | some a2 =>
            match a2._prev with
            | none =>
              if (alGet m._dial_bcklink a2._id).isSome then
                .error (.assertionError "get_dialing_channel uniqueid in revdials")
              else .ok aOid
            | some p =>
              match heapGet m p with
              | none => .error .dangling
              | some cp =>
                if cp._prev.isSome then
                  .error (.assertionError "get_dialing_channel double link")
                else Channel.get_dialing_channel fuel m p

/-- Python `set.add` on the `_bridged` reference set. -/
def setAdd (l : List OId) (x : OId) : List OId := if l.contains x then l else l ++ [x]

/-- `Channel.do_link`: symmetric add into both `_bridged` sets. -/
def Channel.do_link (m : ChannelManager) (selfO other : OId) : Except Err ChannelManager :=
  match heapGet m selfO with
  | none => .error .dangling
  | some s =>
    let m := heapSet m selfO { s with _bridged := setAdd s._bridged other }
    match heapGet m other with
    | none => .error .dangling
    | some o => .ok (heapSet m other { o with _bridged := setAdd o._bridged selfO })

/-- `Channel.do_unlink`: symmetric remove; Python `set.remove` raises
`KeyError` when the element is absent. -/
def Channel.do_unlink (m : ChannelManager) (selfO other : OId) : Except Err ChannelManager :=
  match heapGet m selfO with
  | none => .error .dangling
  | some s =>
    if s._bridged.contains other then
      let m := heapSet m selfO { s with _bridged := s._bridged.erase other }
      match heapGet m other with
      | none => .error .dangling
      | some o =>
        if o._bridged.contains selfO then
          .ok (heapSet m other { o with _bridged := o._bridged.erase selfO })
        else .error .setKeyError
    else .error .setKeyError

/-- `Channel.do_localbridge`: asserts all four link slots empty, then
`self._next = other; other._prev = self` (the second pair of asserts reads
`other` after `self._next` was written, as the source does). -/
def Channel.do_localbridge (m : ChannelManager) (selfO other : OId) :
    Except Err ChannelManager :=
  match heapGet m selfO with
  | none => .error .dangling
  | some s =>
    if s._next.isSome then .error (.assertionError "do_localbridge self next")
    else if s._prev.isSome then .error (.assertionError "do_localbridge self prev")
    else
      let m := heapSet m selfO { s with _next := some other }
      match heapGet m other with
      | none => .error .dangling
      | some o =>
        if o._next.isSome then .error (.assertionError "do_localbridge other next")
        else if o._prev.isSome then .error (.assertionError "do_localbridge other prev")
        else .ok (heapSet m other { o with _prev := some selfO })

/-- `Channel.do_hangup`: sever the far-end back pointers (leaving `self`'s own
slots untouched) and assert the bridge set is empty. -/
def Channel.do_hangup (m : ChannelManager) (oid : OId) : Except Err ChannelManager :=
  match heapGet m oid with
  | none => .error .dangling
  | some c =>
    let step1 : Except Err ChannelManager :=
      match c._next with
      | none => .ok m
      | some nx =>
        match heapGet m nx with
        | none => .error .dangling
        | some cn => .ok (heapSet m nx { cn with _prev := none })
    match step1 with
    | .error e => .error e
    | .ok m =>
      match heapGet m oid with
      | none => .error .dangling
      | some c2 =>
        match c2._prev with
        | none => if c2._bridged.isEmpty then .ok m else .error (.assertionError "do_hangup bridged")
        | some pv =>
          match heapGet m pv with
          | none => .error .dangling
          | some cp =>
            let m := heapSet m pv { cp with _next := none }
            match heapGet m oid with
            | none => .error .dangling
            | some c3 =>
              if c3._bridged.isEmpty then .ok m else .error (.assertionError "do_hangup bridged")

/-- `Channel.do_masquerade`: drop `self`'s local links, transplant `other`'s
links onto `self` (rewriting far-end back pointers), and share `other`'s
`custom` dict.  Every step refetches the objects it touches, mirroring
Python's sequential attribute mutations. -/
def Channel.do_masquerade (m : ChannelManager) (selfO other : OId) :
    Except Err ChannelManager :=
  -- if self._next: self._next._prev = None; self._next = None
  let step1 : Except Err ChannelManager :=
    match heapGet m selfO with
    | none => .error .dangling
    | some s =>
      match s._next with
      | none => .ok m
      | some nx =>
        match heapGet m nx with
        | none => .error .dangling
        | some cn =>
          let m := heapSet m nx { cn with _prev := none }
          match heapGet m selfO with
          | none => .error .dangling
          | some s2 => .ok (heapSet m selfO { s2 with _next := none })
  match step1 with
  | .error e => .error e
  | .ok m =>
    -- if self._prev: self._prev._next = None; self._prev = None
    let step2 : Except Err ChannelManager :=
      match heapGet m selfO with
      | none => .error .dangling
      | some s =>
        match s._prev with
        | none => .ok m
        | some pv =>
          match heapGet m pv with
          | none => .error .dangling
          | some cp =>
            let m := heapSet m pv { cp with _next := none }
            match heapGet m selfO with
            | none => .error .dangling
            | some s2 => .ok (heapSet m selfO { s2 with _prev := none })
    match step2 with
    | .error e => .error e
    | .ok m =>
      -- if other._next: other._next._prev = self; self._next = other._next; other._next = None
      let step3 : Except Err ChannelManager :=
        match heapGet m other with
        | none => .error .dangling
        | some o =>
          match o._next with
          | none => .ok m
          | some onx =>
            match heapGet m onx with
            | none => .error .dangling
            | some cn =>
              let m := heapSet m onx { cn with _prev := some selfO }
              match heapGet m selfO with
              | none => .error .dangling
              | some s =>
                let m := heapSet m selfO { s with _next := some onx }
                match heapGet m other with
                | none => .error .dangling
                | some o2 => .ok (heapSet m other { o2 with _next := none })
      match step3 with
      | .error e => .error e
      | .ok m =>
        -- if other._prev: other._prev._next = self; self._prev = other._prev; other._prev = None
        let step4 : Except Err ChannelManager :=
          match heapGet m other with
          | none => .error .dangling
          | some o =>
            match o._prev with
            | none => .ok m
            | some opv =>
              match heapGet m opv with
              | none => .error .dangling
              | some cp =>
                let m := heapSet m opv { cp with _next := some selfO }
                match heapGet m selfO with
                | none => .error .dangling
                | some s =>
                  let m := heapSet m selfO { s with _prev := some opv }
                  match heapGet m other with
                  | none => .error .dangling
                  | some o2 => .ok (heapSet m other { o2 with _prev := none })
        match step4 with
        | .error e => .error e
        | .ok m =>
          -- self.custom = other.custom  (shared cell)
          match heapGet m other with
          | none => .error .dangling
          | some o =>
            match heapGet m selfO with
            | none => .error .dangling
            | some s => .ok (heapSet m selfO { s with customRef := o.customRef })

/-- `Channel.get_dialed_channels`: collect terminal B channels over
`_dial_fwdlink`, following local-link chains.  The `defaultdict` read
`dials[self.uniqueid]` inserts an empty list when the key is missing, so the
manager state is threaded.  Set union is modelled as an insertion-ordered
deduplicating list. -/
def Channel.get_dialed_channels : Nat → ChannelManager → OId →
    Except Err (ChannelManager × List OId)
  | 0, _, _ => .error .fuelExhausted
  | fuel + 1, m, oid =>
    match heapGet m oid with
    | none => .error .dangling
    | some c =>
      let entry := alGet m._dial_fwdlink c._id
      let m := match entry with
        | some _ => m
        | none => { m with _dial_fwdlink := alSet m._dial_fwdlink c._id [] }
      (entry.getD []).foldlM
        (fun (acc : ChannelManager × List OId) dialed_uniqueid => do
          let m := acc.1
          let b_channels := acc.2
          let bOid ← m._get_chan_by_uniqueid dialed_uniqueid
          match heapGet m bOid with
          | none => .error Err.dangling
          | some b_chan =>
            match b_chan._next with
            | none =>
              if (alGet m._dial_fwdlink b_chan._id).isSome then
                .error (Err.assertionError "get_dialed_channels uniqueid in dials")
              else .ok (m, setAdd b_channels bOid)
            | some nx =>
              match heapGet m nx with
              | none => .error Err.dangling
              | some cn =>
                if cn._next.isSome then
                  .error (Err.assertionError "get_dialed_channels double link")
                else do
                  let (m, more) ← Channel.get_dialed_channels fuel m nx
                  .ok (m, more.foldl setAdd b_channels))
        (m, [])

/-- `Channel.get_related`: depth-first traversal over `_prev`, `_next` and
`_bridged` (assertion support only). -/
def Channel.get_related : Nat → ChannelManager → OId → List OId → Except Err (List OId)
  | 0, _, _, _ => .error .fuelExhausted
  | fuel + 1, m, oid, used =>
    if used.contains oid then .ok used
    else
      match heapGet m oid with
      | none => .error .dangling
      | some c => do
        let used := used ++ [oid]
        let used ← match c._prev with
          | none => Except.ok used
          | some p => Channel.get_related fuel m p used
        let used ← match c._next with
          | none => Except.ok used
          | some nx => Channel.get_related fuel m nx used
        c._bridged.foldlM (fun u b => Channel.get_related fuel m b u) used

/-- Lexicographic comparison of channel names (Python string `<` on code
points), used by `get_relevant`'s `sorted`. -/
def strLe : List Char → List Char → Bool
  | [], _ => true
  | _ :: _, [] => false
  | a :: as, b :: bs => if a == b then strLe as bs else decide (a.toNat < b.toNat)

/-- Insertion sort of object ids by channel name. -/
def sortByName (m : ChannelManager) : List OId → List OId
  | [] => []
  | x :: t =>
    let rec ins (x : OId) : List OId → List OId
      | [] => [x]
      | y :: t =>
        let nx := match heapGet m x with | some c => c._name.data | none => []
        let ny := match heapGet m y with | some c => c._name.data | none => []
        if strLe nx ny then x :: y :: t else y :: ins x t
    ins x (sortByName m t)

/-- `Channel.get_relevant`: the related channels that are relevant, sorted by
name (assertion support only; compared by object identity). -/
def Channel.get_relevant (fuel : Nat) (m : ChannelManager) (oid : OId) :
    Except Err (List OId) := do
  let related ← Channel.get_related fuel m oid []
  .ok (sortByName m (related.filter (fun o =>
    match heapGet m o with
    | some c => c.is_relevant
    | none => false)))

/-- `Channel.__init__`: read the `Newchannel` fields, compute the initial
`_callerid` (outbound-trunk special case first), and allocate the object and
its `custom` dict. -/
def Channel.init (m : ChannelManager) (e : Event) : Except Err (ChannelManager × OId) := do
  let chName ← evGet e "Channel"
  let uid ← evGet e "Uniqueid"
  let stStr ← evGet e "ChannelState"
  let st ← py_int stStr
  let acct ← evGet e "AccountCode"
  let exten ← evGet e "Exten"
  let cid ←
    if acct.data.length = 9 ∧ py_isdigit acct = true ∧
        py_startswith chName ("SIP/" ++ acct ++ "-") = true then
      pure { code := 0, name := "", number := exten, is_public := false : CallerId }
    else do
      let code ← if acct = "" then pure (0 : Int) else py_int acct
      let cidName ← evGet e "CallerIDName"
      let cidNum ← evGet e "CallerIDNum"
      pure { code := code, name := cidName, number := cidNum, is_public := true : CallerId }
  let oid := m.nextOid
  let ref := m.nextCustomRef
  let c : Channel :=
    { _name := chName, _id := uid, _next := none, _prev := none, _state := st,
      _bridged := [], _accountcode := acct, _exten := exten, _callerid := cid,
      customRef := ref, _fired_on_b_dial := none }
  pure ({ m with heap := alSet m.heap oid c, nextOid := oid + 1,
                 customHeap := alSet m.customHeap ref none, nextCustomRef := ref + 1 }, oid)

/-- `Channel.set_state`: store the new state, assert it changed, and when the
old state was Down fire the dial hooks (`_raw_a_dial` for `(3, 4, 6)` then
`_raw_b_dial` for `(5, 6)`).  The hooks are the channel manager's methods and
are passed in, as the source dispatches through `self._channel_manager`. -/
def Channel.set_state
    (rawA rawB : ChannelManager → OId → Except Err (ChannelManager × List Output))
    (m : ChannelManager) (oid : OId) (e : Event) :
    Except Err (ChannelManager × List Output) :=
  match heapGet m oid with
  | none => .error .dangling
  | some c =>
    match evGet e "ChannelState" with
    | .error err => .error err
    | .ok s =>
      match py_int s with
      | .error err => .error err
      | .ok new_state =>
        let old_state := c._state
        let m := heapSet m oid { c with _state := new_state }
        if old_state = new_state then .error (.assertionError "set_state")
        else if old_state = 0 then
          match (if new_state = 3 ∨ new_state = 4 ∨ new_state = 6 then rawA m oid
                 else .ok (m, [])) with
          | .error err => .error err
          | .ok (m1, out1) =>
            match (if new_state = 5 ∨ new_state = 6 then rawB m1 oid
                   else .ok (m1, [])) with
            | .error err => .error err
            | .ok (m2, out2) => .ok (m2, out1 ++ out2)
        else .ok (m, [])

/-- `Channel.set_callerid`: keep the stored `code`, take name and number from
the event, and derive `is_public` from `'Allowed' in CID-CallingPres`. -/
def Channel.set_callerid (m : ChannelManager) (oid : OId) (e : Event) :
    Except Err ChannelManager := do
  match heapGet m oid with
  | none => .error Err.dangling
  | some c => do
    let cidName ← evGet e "CallerIDName"
    let cidNum ← evGet e "CallerIDNum"
    let pres ← evGet e "CID-CallingPres"
    .ok (heapSet m oid { c with _callerid :=
      { code := c._callerid.code, name := cidName, number := cidNum,
        is_public := py_in_str "Allowed" pres } })

/-- `Channel.set_accountcode`. -/
def Channel.set_accountcode (m : ChannelManager) (oid : OId) (e : Event) :
    Except Err ChannelManager := do
  match heapGet m oid with
  | none => .error Err.dangling
  | some c => do
    let acct ← evGet e "AccountCode"
    .ok (heapSet m oid { c with _accountcode := acct })

/-- `ChannelManager._get_chan_by_channame_from_evkey`: look up (optionally
pop) the channel named by `event[event_key]`; failure raises
`MissingChannel(event_key, value)`. -/
def ChannelManager._get_chan_by_channame_from_evkey (m : ChannelManager) (e : Event)
    (event_key : String) (pop : Bool) : Except Err (ChannelManager × OId) :=
  match evGet e event_key with
  | .error err => .error err
  | .ok value =>
    match alGet m._channels value with
    | some oid =>
      if pop then .ok ({ m with _channels := alDel m._channels value }, oid)
      else .ok (m, oid)
    | none => .error (.missingChannel event_key value)

/-- `ChannelManager._raw_a_dial`: deliberately a no-op. -/
def ChannelManager._raw_a_dial (m : ChannelManager) (_channel : OId) :
    Except Err (ChannelManager × List Output) := .ok (m, [])

/-- `ChannelManager._raw_b_dial`: for `SIP/` channels, resolve the dialing
channel; when it carries a pending `'raw_blind_transfer'` marker, pop it and
invoke `on_b_dial` then `on_transfer`, otherwise invoke `on_b_dial` alone. -/
def ChannelManager._raw_b_dial (fuel : Nat) (m : ChannelManager) (oid : OId) :
    Except Err (ChannelManager × List Output) :=
  match heapGet m oid with
  | none => .error .dangling
  | some channel =>
    if py_startswith channel._name "SIP/" then
      match Channel.get_dialing_channel fuel m oid with
      | .error e => .error e
      | .ok a_oid =>
        match heapGet m a_oid with
        | none => .error .dangling
        | some a_chan =>
          let callee := channel.callerid
          match customGet m a_chan.customRef with
          | some old_a_oid =>
            let m := customSet m a_chan.customRef none
            match heapGet m old_a_oid with
            | none => .error .dangling
            | some old_a_chan =>
              let caller := old_a_chan.callerid
              let redirector := caller
              let caller2 := a_chan.callerid
              .ok (m, [Output.on_b_dial caller callee,
                       Output.on_transfer redirector caller2 callee])
          | none => .ok (m, [Output.on_b_dial a_chan.callerid callee])
    else .ok (m, [])

/-- `ChannelManager._raw_attended_transfer`: classical attended transfer when
the target is bridged, blonde transfer (one `on_transfer` per open dial)
otherwise. -/
def ChannelManager._raw_attended_transfer (fuel : Nat) (m : ChannelManager)
    (channel target : OId) : Except Err (ChannelManager × List Output) := do
  match heapGet m target with
  | none => .error Err.dangling
  | some target_c =>
    let redirector := target_c.callerid
    match heapGet m channel with
    | none => .error Err.dangling
    | some chan_c => do
      let a_oid ← chan_c.bridged_channel
      match heapGet m a_oid with
      | none => .error Err.dangling
      | some a_chan =>
        let caller := a_chan.callerid
        if target_c.is_bridged then do
          let b_oid ← target_c.bridged_channel
          match heapGet m b_oid with
          | none => .error Err.dangling
          | some b_chan =>
            let m := heapSet m b_oid { b_chan with _fired_on_b_dial := some caller }
            let callee := b_chan.callerid
            .ok (m, [Output.on_transfer redirector caller callee])
        else do
          let (m, bs) ← Channel.get_dialed_channels fuel m target
          let outs ← bs.mapM (fun b =>
            match heapGet m b with
            | some b_chan => Except.ok (Output.on_transfer redirector caller b_chan.callerid)
            | none => .error Err.dangling)
          .ok (m, outs)

/-- `ChannelManager._raw_blind_transfer`: stash the transferring channel in
the target's `custom['raw_blind_transfer']`, to be consumed by the next
B dial. -/
def ChannelManager._raw_blind_transfer (m : ChannelManager) (channel target : OId)
    (_targetexten : String) : Except Err ChannelManager :=
  match heapGet m target with
  | none => .error .dangling
  | some t => .ok (customSet m t.customRef (some channel))

/-- `ChannelManager._raw_pickup_transfer`: synthesize the callee from the
loser's destination details and report the pickup as a transfer with the
callee on both sides. -/
def ChannelManager._raw_pickup_transfer (fuel : Nat) (m : ChannelManager)
    (winner loser : OId) : Except Err (ChannelManager × List Output) := do
  let a_oid ← Channel.get_dialing_channel fuel m loser
  match heapGet m a_oid with
  | none => .error Err.dangling
  | some a_chan =>
    let caller := a_chan.callerid
    match heapGet m loser with
    | none => .error Err.dangling
    | some loser_c =>
      let dest := loser_c.callerid
      match heapGet m winner with
      | none => .error Err.dangling
      | some winner_c =>
        let callee := winner_c.callerid.replace_contact dest.name dest.number dest.is_public
        .ok (m, [Output.on_transfer callee caller callee])

/-- The `Newchannel` branch of `_on_event`: build the channel and register it
in both indices. -/
def handle_newchannel (m : ChannelManager) (e : Event) :
    Except Err (ChannelManager × List Output) :=
  match Channel.init m e with
  | .error err => .error err
  | .ok (m, oid) =>
    match heapGet m oid with
    | none => .error .dangling
    | some c =>
      .ok ({ m with _channels := alSet m._channels c._name oid,
                    _channels_by_uniqueid := alSet m._channels_by_uniqueid c._id oid }, [])

/-- The `Newstate` branch of `_on_event`. -/
def handle_newstate (fuel : Nat) (m : ChannelManager) (e : Event) :
    Except Err (ChannelManager × List Output) :=
  match m._get_chan_by_channame_from_evkey e "Channel" false with
  | .error err => .error err
  | .ok (m, oid) =>
    Channel.set_state ChannelManager._raw_a_dial (ChannelManager._raw_b_dial fuel) m oid e

/-- The `NewCallerid` branch of `_on_event`. -/
def handle_newcallerid (m : ChannelManager) (e : Event) :
    Except Err (ChannelManager × List Output) := do
  let (m, oid) ← m._get_chan_by_channame_from_evkey e "Channel" false
  let m ← Channel.set_callerid m oid e
  .ok (m, [])

/-- The `NewAccountCode` branch of `_on_event`. -/
def handle_newaccountcode (m : ChannelManager) (e : Event) :
    Except Err (ChannelManager × List Output) := do
  let (m, oid) ← m._get_chan_by_channame_from_evkey e "Channel" false
  let m ← Channel.set_accountcode m oid e
  .ok (m, [])

/-- The `LocalBridge` branch of `_on_event`. -/
def handle_localbridge (m : ChannelManager) (e : Event) :
    Except Err (ChannelManager × List Output) := do
  let (m, c1) ← m._get_chan_by_channame_from_evkey e "Channel1" false
  let (m, c2) ← m._get_chan_by_channame_from_evkey e "Channel2" false
  let m ← Channel.do_localbridge m c1 c2
  .ok (m, [])

/-- The `Rename` branch of `_on_event`: pop by the old name, rename, reinsert
under the new name. -/
def handle_rename (m : ChannelManager) (e : Event) :
    Except Err (ChannelManager × List Output) := do
  let (m, oid) ← m._get_chan_by_channame_from_evkey e "Channel" true
  let newname ← evGet e "Newname"
  let m ← Channel.set_name m oid newname
  .ok ({ m with _channels := alSet m._channels newname oid }, [])

/-- The `Bridge` branch of `_on_event`: `Link`/`Unlink` on `Bridgestate`, any
other value is an assertion failure. -/
def handle_bridge (m : ChannelManager) (e : Event) :
    Except Err (ChannelManager × List Output) := do
  let (m, c1) ← m._get_chan_by_channame_from_evkey e "Channel1" false
  let (m, c2) ← m._get_chan_by_channame_from_evkey e "Channel2" false
  let bs ← evGet e "Bridgestate"
  if bs = "Link" then do
    let m ← Channel.do_link m c1 c2
    .ok (m, [])
  else if bs = "Unlink" then do
    let m ← Channel.do_unlink m c1 c2
    .ok (m, [])
  else .error (.assertionError "bridge bridgestate")

/-- The `Masquerade` branch of `_on_event`: the pickup recognition asserts on
the state pair and fires `_raw_pickup_transfer` for `OriginalState =
Ringing`, after which the original masquerades the clone. -/
def handle_masquerade (fuel : Nat) (m : ChannelManager) (e : Event) :
    Except Err (ChannelManager × List Output) := do
  let (m, clone) ← m._get_chan_by_channame_from_evkey e "Clone" false
  let (m, original) ← m._get_chan_by_channame_from_evkey e "Original" false
  let cs ← evGet e "CloneState"
  let os ← evGet e "OriginalState"
  let (m, out) ←
    if cs ≠ os then
      if os ≠ "Ring" ∧ os ≠ "Ringing" then
        Except.error (Err.assertionError "masquerade original state")
      else if cs ≠ "Up" then Except.error (Err.assertionError "masquerade clone state")
      else if os = "Ringing" then m._raw_pickup_transfer fuel clone original
      else Except.ok (m, [])
    else Except.ok (m, [])
  let m ← Channel.do_masquerade m original clone
  .ok (m, out)

/-- The sanity loop of the `Hangup` branch: no surviving channel may still
link to the hung-up object. -/
def hangupSanity (m : ChannelManager) (oid : OId) : Bool :=
  m._channels.all (fun p =>
    match heapGet m p.2 with
    | none => true
    | some ch => !(ch._next == some oid) && !(ch._prev == some oid))

/-- The `Hangup` branch of `_on_event`, in source order: relevance snapshot,
`do_hangup`, deletion from both indices, sanity asserts, the
`(no channels left)` block with its emptiness asserts, and then the dial-graph
purge for a hung-up B side. -/
def handle_hangup (fuel : Nat) (m : ChannelManager) (e : Event) :
    Except Err (ChannelManager × List Output) := do
  let (m, oid) ← m._get_chan_by_channame_from_evkey e "Channel" false
  let before ← Channel.get_relevant fuel m oid
  let m ← Channel.do_hangup m oid
  match heapGet m oid with
  | none => .error Err.dangling
  | some c => do
    let m ←
      match alGet m._channels c._name with
      | none => Except.error (Err.keyError c._name)
      | some _ => Except.ok { m with _channels := alDel m._channels c._name }
    let m ←
      match alGet m._channels_by_uniqueid c._id with
      | none => Except.error (Err.keyError c._id)
      | some _ =>
        Except.ok { m with _channels_by_uniqueid := alDel m._channels_by_uniqueid c._id }
    if !hangupSanity m oid then .error (.assertionError "hangup still linked")
    else do
      let after ← Channel.get_relevant fuel m oid
      if before ≠ after then .error (.assertionError "hangup relevant changed")
      else do
        let (m, out) ←
          if m._channels.isEmpty then
            if !m._channels_by_uniqueid.isEmpty then
              Except.error (Err.assertionError "hangup channels_by_uniqueid")
            else if !m._dial_bcklink.isEmpty then
              Except.error (Err.assertionError "hangup dial_bcklink")
            else if !m._dial_fwdlink.isEmpty then
              Except.error (Err.assertionError "hangup dial_fwdlink")
            else Except.ok (m, [Output.trace_msg TraceMsg.no_channels_left])
          else Except.ok (m, [])
        match alGet m._dial_bcklink c._id with
        | none => .ok (m, out)
        | some a_chan =>
          let m := { m with _dial_bcklink := alDel m._dial_bcklink c._id }
          match alGet m._dial_fwdlink a_chan with
          | none => .error .valueError
          | some l =>
            if !l.contains c._id then .error .valueError
            else
              let l' := l.erase c._id
              let m := { m with _dial_fwdlink := alSet m._dial_fwdlink a_chan l' }
              if l'.isEmpty then
                .ok ({ m with _dial_fwdlink := alDel m._dial_fwdlink a_chan }, out)
              else .ok (m, out)

/-- The `Dial` branch of `_on_event`: on `Begin`, check both channels exist,
assert the destination is not already a dial target, then extend both dial
maps; `End` is a no-op; any other `SubEvent` is an assertion failure. -/
def handle_dial (m : ChannelManager) (e : Event) :
    Except Err (ChannelManager × List Output) :=
  match evGet e "SubEvent" with
  | .error err => .error err
  | .ok sub =>
    if sub = "Begin" then
      match evGet e "UniqueID" with
      | .error err => .error err
      | .ok uniqueid =>
        match m._get_chan_by_uniqueid uniqueid with
        | .error err => .error err
        | .ok _ =>
          match evGet e "DestUniqueID" with
          | .error err => .error err
          | .ok dest =>
            match m._get_chan_by_uniqueid dest with
            | .error err => .error err
            | .ok _ =>
              if (alGet m._dial_bcklink dest).isSome then
                .error (.assertionError "dial dest already dialed")
              else
                .ok ({ m with
                        _dial_fwdlink :=
                          match alGet m._dial_fwdlink uniqueid with
                          | some l => alSet m._dial_fwdlink uniqueid (l ++ [dest])
                          | none => alSet m._dial_fwdlink uniqueid [dest],
                        _dial_bcklink := alSet m._dial_bcklink dest uniqueid }, [])
    else if sub = "End" then .ok (m, [])
    else .error (.assertionError "dial subevent")

/-- The `Transfer` branch of `_on_event`: resolve channel and target, assert
the target matches `TargetUniqueid`, then dispatch on `TransferType`
(`Attended` / `Blind`; anything else raises `NotImplementedError`). -/
def handle_transfer (fuel : Nat) (m : ChannelManager) (e : Event) :
    Except Err (ChannelManager × List Output) := do
  let (m, channel) ← m._get_chan_by_channame_from_evkey e "Channel" false
  let (m, target) ← m._get_chan_by_channame_from_evkey e "TargetChannel" false
  let tuid ← evGet e "TargetUniqueid"
  match alGet m._channels_by_uniqueid tuid with
  | none => .error (.keyError tuid)
  | some t2 =>
    if t2 ≠ target then .error (.assertionError "transfer target mismatch")
    else do
      let tt ← evGet e "TransferType"
      if tt = "Attended" then m._raw_attended_transfer fuel channel target
      else if tt = "Blind" then do
        let exten ← evGet e "TransferExten"
        let m ← m._raw_blind_transfer channel target exten
        .ok (m, [])
      else .error .notImplementedError

/-- The dispatch chain of `ChannelManager._on_event` (everything after the
initial `trace_ami`).  Note the `Bridge` test: the source writes
`elif event_name in 'Bridge':`, which is Python substring membership, not
equality. -/
def dispatch (fuel : Nat) (m : ChannelManager) (e : Event) :
    Except Err (ChannelManager × List Output) :=
  match evGet e "Event" with
  | .error err => .error err
  | .ok event_name =>
    if event_name = "FullyBooted" then .ok (m, [Output.trace_msg TraceMsg.connected])
    else if event_name = "Newchannel" then handle_newchannel m e
    else if event_name = "Newstate" then handle_newstate fuel m e
    else if event_name = "NewCallerid" then handle_newcallerid m e
    else if event_name = "NewAccountCode" then handle_newaccountcode m e
    else if event_name = "LocalBridge" then handle_localbridge m e
    else if event_name = "Rename" then handle_rename m e
    else if py_in_str event_name "Bridge" = true then handle_bridge m e
    else if event_name = "Masquerade" then handle_masquerade fuel m e
    else if event_name = "Hangup" then handle_hangup fuel m e
    else if event_name = "Dial" then handle_dial m e
    else if event_name = "Transfer" then handle_transfer fuel m e
    else .ok (m, [])

/-- `ChannelManager._on_event`: trace the AMI event to the reporter, then
dispatch.  The trace survives a raise; in every dispatch branch no other
output can precede a raise (checked against the source branch by branch). -/
def ChannelManager._on_event (fuel : Nat) (m : ChannelManager) (e : Event) :
    List Output × Except Err ChannelManager :=
  match dispatch fuel m e with
  | .ok (m', out) => (Output.trace_ami e :: out, .ok m')
  | .error err => ([Output.trace_ami e], .error err)

/-- `ChannelManager.on_event`: run `_on_event`, catching exactly
`MissingChannel`, `MissingUniqueid` and `BridgedError` (each logged through
`trace_msg`), then call `reporter.on_event`.  Any other exception propagates
before `reporter.on_event` is reached.  Errors return the pre-event state
(see the header note on caught-error states). -/
def ChannelManager.on_event (fuel : Nat) (m : ChannelManager) (e : Event) :
    ChannelManager × List Output × Option Err :=
  match m._on_event fuel e with
  | (out, .ok m') => (m', out ++ [Output.reporter_on_event e], none)
  | (out, .error (.missingChannel k v)) =>
    (m, out ++ [Output.trace_msg (TraceMsg.missing_channel k v e),
                Output.reporter_on_event e], none)
  | (out, .error (.missingUniqueid i)) =>
    (m, out ++ [Output.trace_msg (TraceMsg.missing_uniqueid i e),
                Output.reporter_on_event e], none)
  | (out, .error .bridgedError) =>
    (m, out ++ [Output.trace_msg TraceMsg.bridged_error,
                Output.reporter_on_event e], none)
  | (out, .error err) => (m, out, some err)

/-- Feed a list of events through `on_event`; a propagating (fatal) exception
aborts the run, as it would crash the caller's event loop. -/
def runEvents (fuel : Nat) : ChannelManager → List Event →
    ChannelManager × List Output × Option Err
  | m, [] => (m, [], none)
  | m, e :: es =>
    match m.on_event fuel e with
    | (m', out, none) =>
      let (m'', out', r) := runEvents fuel m' es
      (m'', out ++ out', r)
    | (m', out, some err) => (m', out, some err)

/-- The default body of the overridable hook `ChannelManager.on_b_dial`:
forward to `reporter.on_b_dial`, then trace. -/
def ChannelManager.on_b_dial_default (caller callee : CallerId) : List Output :=
  [Output.rep_on_b_dial caller callee,
   Output.trace_msg (TraceMsg.b_dial_msg caller callee)]

/-- The default body of the overridable hook `ChannelManager.on_transfer`:
a single `trace_msg` (`'transfer: {party1} <--> {party2} (through
{redirector})'`). -/
def ChannelManager.on_transfer_default (redirector party1 party2 : CallerId) :
    List Output :=
  [Output.trace_msg (TraceMsg.transfer_msg party1 party2 redirector)]

/-- The spec's channel-name pattern `SIP/(\d{9})-` (spec §6.3): when the name
is `SIP/` followed by exactly nine digits and a dash, the embedded account
code is those nine digits as a number. -/
def specSipAcct (s : String) : Option Nat :=
  if s.data.take 4 = ['S', 'I', 'P', '/'] ∧ ((s.data.drop 4).take 9).length = 9 ∧
      ((s.data.drop 4).take 9).all Char.isDigit = true ∧ (s.data.drop 13).take 1 = ['-'] then
    some (py_int_digits ⟨(s.data.drop 4).take 9⟩)
  else none

/-- The rewinding step of the iteration described by the spec for
`get_dialing_channel`: `while prev: a = prev` (rewind to the head of the
local-link chain), fuelled. -/
def rewind_prev : Nat → ChannelManager → OId → Option OId
  | 0, _, _ => none
  | fuel + 1, m, oid =>
    match heapGet m oid with
    | none => none
    | some c =>
      match c._prev with
      | none => some oid
      | some p => rewind_prev fuel m p

/-- The iteration the spec describes for `get_dialing_channel`: starting from
the channel, follow `dial_bck` to the dialing channel, rewind along `prev` to
the head of its local-link chain, and repeat until `dial_bck` has no entry for
the current head, which is then returned. -/
def dialing_iteration : Nat → ChannelManager → OId → Option OId
  | 0, _, _ => none
  | fuel + 1, m, oid =>
    match heapGet m oid with
    | none => none
    | some c =>
      match alGet m._dial_bcklink c._id with
      | none => some oid
      | some a_uid =>
        match alGet m._channels_by_uniqueid a_uid with
        | none => none
        | some aOid =>
          match rewind_prev (fuel + 1) m aOid with
          | none => none
          | some head => dialing_iteration fuel m head

/-- A well-formed `Newchannel` event. -/
def newchannelEvent (name uid st acct exten cidName cidNum : String) : Event :=
  [("Event", "Newchannel"), ("Channel", name), ("Uniqueid", uid), ("ChannelState", st),
   ("AccountCode", acct), ("Exten", exten), ("CallerIDName", cidName),
   ("CallerIDNum", cidNum)]

/-- C1 witness data: the channel stashed by the blind transfer. -/
def c1_oldA : Channel :=
  { _name := "SIP/301-0001", _id := "olda", _next := none, _prev := none, _state := 6,
    _bridged := [], _accountcode := "", _exten := "300",
    _callerid := { code := 0, name := "Alice", number := "301", is_public := true },
    customRef := 0, _fired_on_b_dial := none }

/-- C1 witness data: the dialing channel carrying the pending marker. -/
def c1_a : Channel :=
  { _name := "Local/300@route;1", _id := "a", _next := none, _prev := none, _state := 6,
    _bridged := [], _accountcode := "", _exten := "300",
    _callerid := { code := 0, name := "", number := "300", is_public := true },
    customRef := 1, _fired_on_b_dial := none }

/-- C1 witness data: the newly dialed B channel. -/
def c1_b : Channel :=
  { _name := "SIP/302-0002", _id := "b", _next := none, _prev := none, _state := 5,
    _bridged := [], _accountcode := "", _exten := "302",
    _callerid := { code := 0, name := "Bob", number := "302", is_public := true },
    customRef := 2, _fired_on_b_dial := none }

/-- C1 witness data: a manager state in the middle of a blind transfer, with
`c1_a.custom['raw_blind_transfer'] = c1_oldA` and an open dial onto `c1_b`. -/
def c1_state : ChannelManager :=
  { heap := [(0, c1_oldA), (1, c1_a), (2, c1_b)], nextOid := 3,
    _channels := [("SIP/301-0001", 0), ("Local/300@route;1", 1), ("SIP/302-0002", 2)],
    _channels_by_uniqueid := [("olda", 0), ("a", 1), ("b", 2)],
    _dial_fwdlink := [("a", ["b"])], _dial_bcklink := [("b", "a")],
    customHeap := [(0, none), (1, some 0), (2, none)], nextCustomRef := 3 }

/-- A concrete `CallerId` for the C2 statements. -/
def c2_cid : CallerId := { code := 1, name := "n", number := "5", is_public := true }

/-- C3 failing input: two channels, a dial from A to B, then A hangs up
followed by B. -/
def c3_events : List Event :=
  [newchannelEvent "SIP/100000001-00000001" "uid-a" "0" "" "201" "Alice" "201",
   newchannelEvent "SIP/100000002-00000002" "uid-b" "0" "" "202" "Bob" "202",
   [("Event", "Dial"), ("SubEvent", "Begin"), ("UniqueID", "uid-a"),
    ("DestUniqueID", "uid-b")],
   [("Event", "Hangup"), ("Channel", "SIP/100000001-00000001")],
   [("Event", "Hangup"), ("Channel", "SIP/100000002-00000002")]]

/-- C4 setup: two live channels. -/
def c4_setup : List Event :=
  [newchannelEvent "SIP/cex4-a" "u4a" "0" "" "x" "A" "1",
   newchannelEvent "SIP/cex4-b" "u4b" "0" "" "x" "B" "2"]

/-- C4 setup state. -/
def c4_state : ChannelManager := (runEvents 20 emptyManager c4_setup).1

/-- C4 failing input: an event named `ridge` — not a dispatched event name,
but a substring of `Bridge`. -/
def c4_event : Event :=
  [("Event", "ridge"), ("Channel1", "SIP/cex4-a"), ("Channel2", "SIP/cex4-b"),
   ("Bridgestate", "Link")]

/-- C5 counterexample state: one live channel in state Down. -/
def c5_state : ChannelManager :=
  (runEvents 20 emptyManager [newchannelEvent "SIP/cex5-a" "u5a" "0" "" "x" "A" "1"]).1

/-- C5 counterexample input: a `Newstate` repeating the current state, which
makes `set_state`'s assert fail — a fatal, non-recoverable error. -/
def c5_event : Event :=
  [("Event", "Newstate"), ("Channel", "SIP/cex5-a"), ("ChannelState", "0")]

/-- C6 witness channel: a name carrying a nine-digit account code. -/
def c6_chan : Channel :=
  { _name := "SIP/123456789-0000000c", _id := "u6", _next := none, _prev := none,
    _state := 0, _bridged := [], _accountcode := "", _exten := "6",
    _callerid := { code := 7, name := "Carol", number := "36", is_public := false },
    customRef := 0, _fired_on_b_dial := none }

/-- C7 witness channel: a channel in state Down. -/
def c7_chan : Channel :=
  { _name := "SIP/700-1", _id := "u7", _next := none, _prev := none, _state := 0,
    _bridged := [], _accountcode := "", _exten := "7",
    _callerid := { code := 0, name := "G", number := "7", is_public := true },
    customRef := 0, _fired_on_b_dial := none }

/-- C7 witness state. -/
def c7_state : ChannelManager :=
  { heap := [(0, c7_chan)], nextOid := 1, _channels := [("SIP/700-1", 0)],
    _channels_by_uniqueid := [("u7", 0)], _dial_fwdlink := [], _dial_bcklink := [],
    customHeap := [(0, none)], nextCustomRef := 1 }

/-- C7 witness input: `Newstate` to Up (6), which must fire both hooks. -/
def c7_event : Event :=
  [("Event", "Newstate"), ("Channel", "SIP/700-1"), ("ChannelState", "6")]

/-- C8 counterexample input: a zombie-named SIP channel is created and reaches
Ringing. -/
def c8_events : List Event :=
  [newchannelEvent "SIP/123456789-1<ZOMBIE>" "z8" "0" "" "100" "Zed" "100",
   [("Event", "Newstate"), ("Channel", "SIP/123456789-1<ZOMBIE>"), ("ChannelState", "5")]]

/-- The effective caller id of the zombie channel of `c8_events` (the
name-derived account code applies). -/
def c8_cid : CallerId :=
  { code := 123456789, name := "Zed", number := "100", is_public := true }

/-- C8 witness channel: a non-SIP (`Local/`) channel. -/
def c8_local : Channel :=
  { _name := "Local/80@route;2", _id := "u8l", _next := none, _prev := none, _state := 5,
    _bridged := [], _accountcode := "", _exten := "80",
    _callerid := { code := 0, name := "", number := "80", is_public := true },
    customRef := 0, _fired_on_b_dial := none }

/-- C8 witness state holding only the `Local/` channel. -/
def c8_state : ChannelManager :=
  { heap := [(0, c8_local)], nextOid := 1, _channels := [("Local/80@route;2", 0)],
    _channels_by_uniqueid := [("u8l", 0)], _dial_fwdlink := [], _dial_bcklink := [],
    customHeap := [(0, none)], nextCustomRef := 1 }

/-- C9 counterexample input: three channels with chained dials X→Y and Y→Z
and no local links. -/
def c9_events : List Event :=
  [newchannelEvent "SIP/cex9-x" "u9x" "0" "" "9" "X" "1",
   newchannelEvent "SIP/cex9-y" "u9y" "0" "" "9" "Y" "2",
   newchannelEvent "SIP/cex9-z" "u9z" "0" "" "9" "Z" "3",
   [("Event", "Dial"), ("SubEvent", "Begin"), ("UniqueID", "u9x"), ("DestUniqueID", "u9y")],
   [("Event", "Dial"), ("SubEvent", "Begin"), ("UniqueID", "u9y"), ("DestUniqueID", "u9z")]]

/-- C9 counterexample state (reached by feeding `c9_events`). -/
def c9_state : ChannelManager := (runEvents 20 emptyManager c9_events).1

/-- C10 witness state: one live channel. -/
def c10_state : ChannelManager :=
  { heap := [(0, c7_chan)], nextOid := 1, _channels := [("SIP/700-1", 0)],
    _channels_by_uniqueid := [("u7", 0)], _dial_fwdlink := [], _dial_bcklink := [],
    customHeap := [(0, none)], nextCustomRef := 1 }

/-- C10 witness input: a `Dial`/`Begin` whose `UniqueID` is not a live
channel. -/
def c10_event : Event :=
  [("Event", "Dial"), ("SubEvent", "Begin"), ("UniqueID", "nosuch"),
   ("DestUniqueID", "u7")]

deriving instance DecidableEq for Except

/-- `List.isPrefixOf` agrees with taking the pattern's length. -/
theorem isPrefixOf_take (p l : List Char) : p.isPrefixOf l = true ↔ l.take p.length = p := by
  induction p generalizing l with
  | nil => simp [List.isPrefixOf]
  | cons a as ih =>
    cases l with
    | nil => simp [List.isPrefixOf]
    | cons b bs =>
      simp only [List.isPrefixOf, Bool.and_eq_true, beq_iff_eq, List.length_cons,
        List.take_succ_cons, List.cons.injEq, ih]
      constructor
      · rintro ⟨h1, h2⟩; exact ⟨h1.symm, h2⟩
      · rintro ⟨h1, h2⟩; exact ⟨h1.symm, h2⟩

/-- Claim C2, counterexample: the default body of `ChannelManager.on_transfer`
does not call `reporter.on_transfer` — at a concrete argument triple, no
`rep_on_transfer` output is produced. -/
theorem C2_on_transfer_not_forwarded :
    Output.rep_on_transfer c2_cid c2_cid c2_cid ∉
      ChannelManager.on_transfer_default c2_cid c2_cid c2_cid := by
  decide

/-- Claim C2 (amended): the default body of `ChannelManager.on_b_dial`
forwards to `reporter.on_b_dial`, while the default body of
`ChannelManager.on_transfer` performs no `reporter.on_transfer` call at all
(it only emits a `trace_msg`). -/
theorem C2_default_hook_bodies (caller callee redirector party1 party2 : CallerId) :
    Output.rep_on_b_dial caller callee ∈
      ChannelManager.on_b_dial_default caller callee ∧
    ∀ x y z : CallerId,
      Output.rep_on_transfer x y z ∉
        ChannelManager.on_transfer_default redirector party1 party2 := by
  constructor
  · simp [ChannelManager.on_b_dial_default]
  · intro x y z h
    simp [ChannelManager.on_transfer_default] at h

/-- Witness for C2: the amended statement applied at concrete caller ids. -/
theorem C2_default_hook_bodies_witness :
    Output.rep_on_b_dial c2_cid c2_cid ∈ ChannelManager.on_b_dial_default c2_cid c2_cid :=
  (C2_default_hook_bodies c2_cid c2_cid c2_cid c2_cid c2_cid).1

/-- Claim C3, code bug: feeding `c3_events` (A dials B; A hangs up, then B
hangs up last), the final `Hangup` removes the last live channel while
`_dial_bcklink` still holds the entry for B — the handler's own
`assert not self._dial_bcklink` fires because the emptiness asserts run
before the B-side purge.  After the first four events the run is healthy:
exactly one channel remains and the dial entry is still present. -/
theorem C3_empty_steady_state_bug :
    (runEvents 50 emptyManager c3_events).2.2 =
      some (Err.assertionError "hangup dial_bcklink") ∧
    (runEvents 50 emptyManager (c3_events.take 4)).2.2 = none ∧
    (runEvents 50 emptyManager (c3_events.take 4)).1._channels.length = 1 ∧
    (runEvents 50 emptyManager (c3_events.take 4)).1._dial_bcklink = [("uid-b", "uid-a")] := by
  decide

/-- Claim C4, code bug: the event name `ridge` is none of the dispatched
names, yet `_on_event` mutates state — the source's `elif event_name in
'Bridge':` is a substring test, so the `ridge` event reaches the Bridge
branch and links the two channels' bridge sets. -/
theorem C4_unknown_event_bug :
    evGet c4_event "Event" = .ok "ridge" ∧
    (heapGet c4_state 0).map Channel._bridged = some [] ∧
    ((dispatch 20 c4_state c4_event).toOption.bind (fun p => heapGet p.1 0)).map
        Channel._bridged = some [1] := by
  decide

/-- Claim C5, counterexample: a `Newstate` event repeating the current state
makes dispatch raise a fatal `AssertionError`; the error propagates out of
`on_event` and `reporter.on_event` is never invoked, contradicting the
claim's "regardless of whether dispatch raised". -/
theorem C5_fatal_error_skips_reporter :
    (c5_state.on_event 20 c5_event).2.2 = some (Err.assertionError "set_state") ∧
    Output.reporter_on_event c5_event ∉ (c5_state.on_event 20 c5_event).2.1 := by
  decide

/-- Claim C8, counterexample: a SIP channel whose name ends in `<ZOMBIE>` is
not relevant, yet when it reaches Ringing the manager emits `on_b_dial` with
it as the callee — `_raw_b_dial` only guards on the `SIP/` name prefix. -/
theorem C8_zombie_b_dial :
    Output.on_b_dial c8_cid c8_cid ∈ (runEvents 20 emptyManager c8_events).2.1 ∧
    (heapGet (runEvents 20 emptyManager c8_events).1 0).map Channel.is_relevant =
      some false := by
  decide

/-- Claim C9, counterexample: with chained dials X→Y→Z and no local links
(state reached by `c9_events`), the iteration described by the claim returns
X, but `get_dialing_channel` on Z raises the `assert a_chan.uniqueid not in
revdials` assertion instead of returning it. -/
theorem C9_chained_dial_mismatch :
    (runEvents 20 emptyManager c9_events).2.2 = none ∧
    dialing_iteration 11 c9_state 2 = some 0 ∧
    Channel.get_dialing_channel 10 c9_state 2 =
      .error (.assertionError "get_dialing_channel uniqueid in revdials") := by
  decide

/-- Claim C8 (amended): `_raw_b_dial`'s only guard is the `SIP/` name prefix —
it emits nothing for a channel whose name does not start with `SIP/`, but (as
the counterexample shows) it does not exclude SIP zombies, so emissions are
not restricted to relevant channels. -/
theorem C8_b_dial_guard (fuel : Nat) (m : ChannelManager) (oid : OId) (c : Channel)
    (hc : heapGet m oid = some c) (h : py_startswith c._name "SIP/" = false) :
    ChannelManager._raw_b_dial fuel m oid = .ok (m, []) := by
  simp [ChannelManager._raw_b_dial, hc, h]

/-- Witness for C8: the guard applied to a concrete `Local/` channel. -/
theorem C8_b_dial_guard_witness :
    heapGet c8_state 0 = some c8_local ∧
    py_startswith c8_local._name "SIP/" = false ∧
    ChannelManager._raw_b_dial 5 c8_state 0 = .ok (c8_state, []) :=
  ⟨by decide, by decide, C8_b_dial_guard 5 c8_state 0 c8_local (by decide) (by decide)⟩

/-- Claim C1: when `_raw_b_dial` fires for a `SIP/` channel `b` whose dialing
channel (via `get_dialing_channel`) is `a`, and `a.custom` carries the
`'raw_blind_transfer'` marker stashed earlier (the channel `old_a`), the
marker is consumed and exactly two hook invocations occur in this order:
`on_b_dial(old_a.callerid, b.callerid)` and then
`on_transfer(old_a.callerid, a.callerid, b.callerid)`. -/
theorem C1_blind_transfer_order (fuel : Nat) (m : ChannelManager)
    (bOid aOid oldAOid : OId) (b a oldA : Channel)
    (hb : heapGet m bOid = some b)
    (hsip : py_startswith b._name "SIP/" = true)
    (hgdc : Channel.get_dialing_channel fuel m bOid = .ok aOid)
    (ha : heapGet m aOid = some a)
    (hmark : customGet m a.customRef = some oldAOid)
    (hold : heapGet m oldAOid = some oldA) :
    ChannelManager._raw_b_dial fuel m bOid =
      .ok (customSet m a.customRef none,
           [Output.on_b_dial oldA.callerid b.callerid,
            Output.on_transfer oldA.callerid a.callerid b.callerid]) := by
  have hold2 : heapGet (customSet m a.customRef none) oldAOid = some oldA := hold
  simp [ChannelManager._raw_b_dial, hb, hsip, hgdc, ha, hmark, hold2]

/-- Witness for C1: the blind-transfer state `c1_state` with the marker on
`c1_a` and the B dial on `c1_b`. -/
theorem C1_blind_transfer_order_witness :
    ChannelManager._raw_b_dial 5 c1_state 2 =
      .ok (customSet c1_state c1_a.customRef none,
           [Output.on_b_dial c1_oldA.callerid c1_b.callerid,
            Output.on_transfer c1_oldA.callerid c1_a.callerid c1_b.callerid]) :=
  C1_blind_transfer_order 5 c1_state 2 1 0 c1_b c1_a c1_oldA (by decide) (by decide)
    (by decide) (by decide) (by decide) (by decide)

/-- Claim C7: `set_state` asserts the state changed; from Down (0) it fires
`_raw_a_dial` exactly for new states `{3, 4, 6}` and then `_raw_b_dial`
exactly for `{5, 6}` (both for 6, a-dial first); from a non-Down state it
fires neither.  The hooks are arbitrary state-preserving emitters so that
each call is visible in the output. -/
theorem C7_set_state_contract (aOut bOut : ChannelManager → OId → List Output)
    (m : ChannelManager) (oid : OId) (e : Event) (c : Channel) (s : String) (ns : Int)
    (hc : heapGet m oid = some c) (hs : evGet e "ChannelState" = .ok s)
    (hn : py_int s = .ok ns) :
    (c._state = ns →
      Channel.set_state (fun mm o => .ok (mm, aOut mm o)) (fun mm o => .ok (mm, bOut mm o))
          m oid e = .error (.assertionError "set_state")) ∧
    (c._state ≠ ns → c._state = 0 →
      Channel.set_state (fun mm o => .ok (mm, aOut mm o)) (fun mm o => .ok (mm, bOut mm o))
          m oid e =
        .ok (heapSet m oid { c with _state := ns },
          (if ns = 3 ∨ ns = 4 ∨ ns = 6 then aOut (heapSet m oid { c with _state := ns }) oid
           else []) ++
          (if ns = 5 ∨ ns = 6 then bOut (heapSet m oid { c with _state := ns }) oid
           else []))) ∧
    (c._state ≠ ns → c._state ≠ 0 →
      Channel.set_state (fun mm o => .ok (mm, aOut mm o)) (fun mm o => .ok (mm, bOut mm o))
          m oid e = .ok (heapSet m oid { c with _state := ns }, [])) := by
  refine ⟨?_, ?_, ?_⟩
  · intro h
    simp [Channel.set_state, hc, hs, hn, h]
  · intro h h0
    have hz : ¬(0 : Int) = ns := h0 ▸ h
    by_cases h346 : ns = 3 ∨ ns = 4 ∨ ns = 6 <;> by_cases h56 : ns = 5 ∨ ns = 6 <;>
      simp [Channel.set_state, hc, hs, hn, h, h0, h346, h56, hz]
  · intro h h0
    simp [Channel.set_state, hc, hs, hn, h, h0]

/-- Witness for C7: a Down channel moved to Up (6) fires the a-dial emitter
and then the b-dial emitter. -/
theorem C7_set_state_contract_witness :
    Channel.set_state
        (fun mm o => .ok (mm, (fun _ _ => [Output.trace_msg TraceMsg.connected]) mm o))
        (fun mm o => .ok (mm, (fun _ _ => [Output.trace_msg TraceMsg.no_channels_left]) mm o))
        c7_state 0 c7_event =
      .ok (heapSet c7_state 0 { c7_chan with _state := 6 },
           [Output.trace_msg TraceMsg.connected, Output.trace_msg TraceMsg.no_channels_left]) := by
  have h := (C7_set_state_contract (fun _ _ => [Output.trace_msg TraceMsg.connected])
    (fun _ _ => [Output.trace_msg TraceMsg.no_channels_left]) c7_state 0 c7_event c7_chan
    "6" 6 (by decide) (by decide) (by decide)).2.1 (by decide) (by decide)
  simpa using h

/-- Dispatch reaches the `Dial` branch for events named `Dial`. -/
theorem dispatch_dial (fuel : Nat) (m : ChannelManager) (e : Event)
    (hev : evGet e "Event" = .ok "Dial") : dispatch fuel m e = handle_dial m e := by
  unfold dispatch
  rw [hev]
  rfl

/-- Claim C10: on a `Dial`/`Begin` whose `UniqueID` (resp. `DestUniqueID`) is
not a live channel, dispatch raises `MissingUniqueid` before touching the
dial graph: `on_event` catches it, logs it, calls `reporter.on_event`, and
the state — in particular `dial_fwd` and `dial_bck` — is exactly the
pre-event state.  When both channels exist (and the destination is not
already dialed), the dial graph is extended. -/
theorem C10_dial_missing_uniqueid (fuel : Nat) (m : ChannelManager) (e : Event)
    (u d : String)
    (hev : evGet e "Event" = .ok "Dial") (hsub : evGet e "SubEvent" = .ok "Begin")
    (hu : evGet e "UniqueID" = .ok u) (hd : evGet e "DestUniqueID" = .ok d) :
    (alGet m._channels_by_uniqueid u = none →
      m.on_event fuel e =
        (m, [Output.trace_ami e, Output.trace_msg (TraceMsg.missing_uniqueid u e),
             Output.reporter_on_event e], none)) ∧
    (∀ oidU, alGet m._channels_by_uniqueid u = some oidU →
      alGet m._channels_by_uniqueid d = none →
      m.on_event fuel e =
        (m, [Output.trace_ami e, Output.trace_msg (TraceMsg.missing_uniqueid d e),
             Output.reporter_on_event e], none)) ∧
    (∀ oidU oidD, alGet m._channels_by_uniqueid u = some oidU →
      alGet m._channels_by_uniqueid d = some oidD → alGet m._dial_bcklink d = none →
      dispatch fuel m e =
        .ok ({ m with
                _dial_fwdlink :=
                  match alGet m._dial_fwdlink u with
                  | some l => alSet m._dial_fwdlink u (l ++ [d])
                  | none => alSet m._dial_fwdlink u [d],
                _dial_bcklink := alSet m._dial_bcklink d u }, [])) := by
  refine ⟨?_, ?_, ?_⟩
  · intro hnu
    simp [ChannelManager.on_event, ChannelManager._on_event, dispatch_dial fuel m e hev,
      handle_dial, ChannelManager._get_chan_by_uniqueid, hsub, hu, hd, hnu]
  · intro oidU hyu hnd
    simp [ChannelManager.on_event, ChannelManager._on_event, dispatch_dial fuel m e hev,
      handle_dial, ChannelManager._get_chan_by_uniqueid, hsub, hu, hd, hyu, hnd]
  · intro oidU oidD hyu hyd hnb
    simp [dispatch_dial fuel m e hev, handle_dial, ChannelManager._get_chan_by_uniqueid,
      hsub, hu, hd, hyu, hyd, hnb]

/-- Witness for C10: a `Dial`/`Begin` naming a unique id that is not live is
logged and leaves the manager unchanged. -/
theorem C10_dial_missing_uniqueid_witness :
    c10_state.on_event 7 c10_event =
      (c10_state,
       [Output.trace_ami c10_event,
        Output.trace_msg (TraceMsg.missing_uniqueid "nosuch" c10_event),
        Output.reporter_on_event c10_event], none) :=
  (C10_dial_missing_uniqueid 7 c10_state c10_event "nosuch" "u7" (by decide) (by decide)
    (by decide) (by decide)).1 (by decide)

/-- Claim C5 (amended): `on_event` catches exactly the three recoverable
errors — `MissingChannel`, `MissingUniqueid`, `BridgedError` — logging each
through `reporter.trace_msg` and then calling `reporter.on_event`; when
dispatch succeeds `reporter.on_event` is also called; but when dispatch
raises any other (fatal) error, the error propagates and `reporter.on_event`
is not invoked. -/
theorem C5_error_boundary (fuel : Nat) (m : ChannelManager) (e : Event) :
    (∀ m', (m._on_event fuel e).2 = .ok m' →
      m.on_event fuel e =
        (m', (m._on_event fuel e).1 ++ [Output.reporter_on_event e], none)) ∧
    (∀ k v, (m._on_event fuel e).2 = .error (.missingChannel k v) →
      m.on_event fuel e =
        (m, (m._on_event fuel e).1 ++
            [Output.trace_msg (TraceMsg.missing_channel k v e),
             Output.reporter_on_event e], none)) ∧
    (∀ i, (m._on_event fuel e).2 = .error (.missingUniqueid i) →
      m.on_event fuel e =
        (m, (m._on_event fuel e).1 ++
            [Output.trace_msg (TraceMsg.missing_uniqueid i e),
             Output.reporter_on_event e], none)) ∧
    ((m._on_event fuel e).2 = .error .bridgedError →
      m.on_event fuel e =
        (m, (m._on_event fuel e).1 ++
            [Output.trace_msg TraceMsg.bridged_error, Output.reporter_on_event e], none)) ∧
    (∀ err, (m._on_event fuel e).2 = .error err →
      (∀ k v, err ≠ .missingChannel k v) → (∀ i, err ≠ .missingUniqueid i) →
      err ≠ .bridgedError →
      m.on_event fuel e = (m, (m._on_event fuel e).1, some err) ∧
      Output.reporter_on_event e ∉ (m._on_event fuel e).1) := by
  cases hd : dispatch fuel m e with
  | ok p =>
    obtain ⟨m', out⟩ := p
    have hoe : m._on_event fuel e = (Output.trace_ami e :: out, Except.ok m') := by
      simp [ChannelManager._on_event, hd]
    unfold ChannelManager.on_event
    rw [hoe]
    refine ⟨?_, ?_, ?_, ?_, ?_⟩
    · intro m2 hm
      injection hm with h
      subst h
      rfl
    · intro k v hm; simp at hm
    · intro i hm; simp at hm
    · intro hm; simp at hm
    · intro err2 hm; simp at hm
  | error err =>
    have hoe : m._on_event fuel e = ([Output.trace_ami e], Except.error err) := by
      simp [ChannelManager._on_event, hd]
    unfold ChannelManager.on_event
    rw [hoe]
    refine ⟨?_, ?_, ?_, ?_, ?_⟩
    · intro m2 hm; simp at hm
    · intro k v hm
      injection hm with h
      subst h
      rfl
    · intro i hm
      injection hm with h
      subst h
      rfl
    · intro hm
      injection hm with h
      subst h
      rfl
    · intro err2 hm hk hi hb
      injection hm with h
      subst h
      cases err
      case missingChannel k v => exact absurd rfl (hk k v)
      case missingUniqueid i => exact absurd rfl (hi i)
      case bridgedError => exact absurd rfl hb
      all_goals exact ⟨rfl, by simp⟩

/-- Witness for C5: the fatal `set_state` assertion error at `c5_event`
propagates and `reporter.on_event` is skipped. -/
theorem C5_error_boundary_witness :
    (c5_state.on_event 20 c5_event =
        (c5_state, (c5_state._on_event 20 c5_event).1,
         some (Err.assertionError "set_state")) ∧
      Output.reporter_on_event c5_event ∉ (c5_state._on_event 20 c5_event).1) :=
  (C5_error_boundary 20 c5_state c5_event).2.2.2.2 (Err.assertionError "set_state")
    (by decide) (fun k v h => Err.noConfusion h) (fun i h => Err.noConfusion h)
    (fun h => Err.noConfusion h)

/-- Claim C6: on every read of the `callerid` accessor, a name matching
`SIP/(\d{9})-` forces the code to those nine digits; any other `SIP/` name
forces code 0; a non-SIP name returns the stored value unchanged.  The
accessor is a pure function of the current `_name` and stored `_callerid`,
and the statement quantifies over every channel value, hence over every state
reachable by prior `set_callerid`/`set_accountcode`/`set_name`/masquerade
mutations. -/
theorem C6_account_code_projection (c : Channel) :
    (∀ n, specSipAcct c._name = some n →
        c.callerid = { c._callerid with code := (n : Int) }) ∧
    (specSipAcct c._name = none → py_startswith c._name "SIP/" = true →
        c.callerid = { c._callerid with code := 0 }) ∧
    (py_startswith c._name "SIP/" = false → c.callerid = c._callerid) := by
  have h4 : ("SIP/" : String).data = ['S','I','P','/'] := rfl
  have hps : py_startswith c._name "SIP/" = true ↔
      c._name.data.take 4 = ['S','I','P','/'] := by
    unfold py_startswith
    rw [h4]
    simpa using isPrefixOf_take ['S','I','P','/'] c._name.data
  have hdashiff : (py_slice c._name 13 14 == "-") = true ↔
      (c._name.data.drop 13).take 1 = ['-'] := by
    unfold py_slice
    rw [beq_iff_eq]
    constructor
    · intro h; have := congrArg String.data h; simpa using this
    · intro h; show String.mk _ = _; rw [h]
  refine ⟨?_, ?_, ?_⟩
  · intro n hn
    unfold specSipAcct at hn
    by_cases hcond : c._name.data.take 4 = ['S','I','P','/'] ∧
        ((c._name.data.drop 4).take 9).length = 9 ∧
        ((c._name.data.drop 4).take 9).all Char.isDigit = true ∧
        (c._name.data.drop 13).take 1 = ['-']
    · obtain ⟨hS, hlen, hdig, hdash⟩ := hcond
      rw [if_pos ⟨hS, hlen, hdig, hdash⟩] at hn
      have hnval : n = py_int_digits ⟨(c._name.data.drop 4).take 9⟩ := by
        injection hn with h; exact h.symm
      unfold Channel.callerid
      rw [if_pos (hps.mpr hS)]
      have hslice : py_slice c._name 4 13 = ⟨(c._name.data.drop 4).take 9⟩ := rfl
      have hdig2 : py_isdigit (py_slice c._name 4 13) = true := by
        rw [hslice]
        unfold py_isdigit
        simp only [Bool.and_eq_true]
        constructor
        · simp only [Bool.not_eq_true']
          have : ((c._name.data.drop 4).take 9) ≠ [] := by
            intro hemp; rw [hemp] at hlen; simp at hlen
          simpa [List.isEmpty_iff]
        · exact hdig
      rw [if_pos (by rw [Bool.and_eq_true]; exact ⟨hdashiff.mpr hdash, hdig2⟩)]
      rw [hslice, hnval]
      rfl
    · rw [if_neg hcond] at hn
      exact absurd hn (by simp)
  · intro hnone hpre
    have hS : c._name.data.take 4 = ['S','I','P','/'] := hps.mp hpre
    unfold Channel.callerid
    rw [if_pos hpre]
    have hcondfalse : ¬ ((py_slice c._name 13 14 == "-") &&
        py_isdigit (py_slice c._name 4 13)) = true := by
      intro hcond
      rw [Bool.and_eq_true] at hcond
      obtain ⟨hdash, hdig⟩ := hcond
      have hdashl : (c._name.data.drop 13).take 1 = ['-'] := hdashiff.mp hdash
      have hlen14 : 14 ≤ c._name.data.length := by
        have h1 : ((c._name.data.drop 13).take 1).length = 1 := by rw [hdashl]; rfl
        simp only [List.length_take, List.length_drop] at h1
        omega
      have hlen9 : ((c._name.data.drop 4).take 9).length = 9 := by
        simp only [List.length_take, List.length_drop]
        omega
      have hdig9 : ((c._name.data.drop 4).take 9).all Char.isDigit = true := by
        have hpd : py_isdigit ⟨(c._name.data.drop 4).take 9⟩ = true := hdig
        unfold py_isdigit at hpd
        rw [Bool.and_eq_true] at hpd
        exact hpd.2
      have hsome : specSipAcct c._name =
          some (py_int_digits ⟨(c._name.data.drop 4).take 9⟩) := by
        unfold specSipAcct
        rw [if_pos ⟨hS, hlen9, hdig9, hdashl⟩]
      rw [hnone] at hsome
      exact absurd hsome (by simp)
    rw [if_neg hcondfalse]
    rfl
  · intro hpre
    unfold Channel.callerid
    rw [hpre]
    simp

/-- Witness for C6: a channel named `SIP/123456789-0000000c` reports account
code 123456789 regardless of its stored caller id. -/
theorem C6_account_code_projection_witness :
    specSipAcct c6_chan._name = some 123456789 ∧
    c6_chan.callerid = { c6_chan._callerid with code := (123456789 : Int) } :=
  ⟨by decide, (C6_account_code_projection c6_chan).1 123456789 (by decide)⟩

/-- Unfolding equation for `Channel.get_dialing_channel` at positive fuel. -/
theorem get_dialing_channel_succ (fuel : Nat) (m : ChannelManager) (oid : OId) :
    Channel.get_dialing_channel (fuel + 1) m oid =
      (match heapGet m oid with
       | none => .error .dangling
       | some a_chan =>
         match alGet m._dial_bcklink a_chan._id with
         | none => .ok oid
         | some dialing_uniqueid =>
           match m._get_chan_by_uniqueid dialing_uniqueid with
           | .error e => .error e
           | .ok aOid =>
             match heapGet m aOid with
             | none => .error .dangling
             | some a2 =>
               match a2._prev with
               | none =>
                 if (alGet m._dial_bcklink a2._id).isSome then
                   .error (.assertionError "get_dialing_channel uniqueid in revdials")
                 else .ok aOid
               | some p =>
                 match heapGet m p with
                 | none => .error .dangling
                 | some cp =>
                   if cp._prev.isSome then
                     .error (.assertionError "get_dialing_channel double link")
                   else Channel.get_dialing_channel fuel m p) := rfl

/-- Unfolding equation for `rewind_prev` at positive fuel. -/
theorem rewind_prev_succ (fuel : Nat) (m : ChannelManager) (oid : OId) :
    rewind_prev (fuel + 1) m oid =
      (match heapGet m oid with
       | none => none
       | some c =>
         match c._prev with
         | none => some oid
         | some p => rewind_prev fuel m p) := rfl

/-- Unfolding equation for `dialing_iteration` at positive fuel. -/
theorem dialing_iteration_succ (fuel : Nat) (m : ChannelManager) (oid : OId) :
    dialing_iteration (fuel + 1) m oid =
      (match heapGet m oid with
       | none => none
       | some c =>
         match alGet m._dial_bcklink c._id with
         | none => some oid
         | some a_uid =>
           match alGet m._channels_by_uniqueid a_uid with
           | none => none
           | some aOid =>
             match rewind_prev (fuel + 1) m aOid with
             | none => none
             | some head => dialing_iteration fuel m head) := rfl

/-- Claim C9 (amended): whenever `get_dialing_channel` returns at all, it
returns the channel reached by the claimed iteration (follow `dial_bck`,
rewind along `prev` to the chain head, repeat until `dial_bck` has no entry
for the head); the spec-side iteration needs one extra fuel step for its
final emptiness check.  The amendment: when a hop lands on a channel with no
`prev` that itself still has a `dial_bck` entry, the code does not continue
the iteration but raises its `assert a_chan.uniqueid not in revdials`
(see the counterexample), and it likewise raises on local-link chains deeper
than 2. -/
theorem C9_get_dialing_refines (n : Nat) (m : ChannelManager) (oid c : OId)
    (h : Channel.get_dialing_channel n m oid = .ok c) :
    dialing_iteration (n + 1) m oid = some c := by
  induction n generalizing oid with
  | zero => simp [Channel.get_dialing_channel] at h
  | succ k ih =>
    rw [get_dialing_channel_succ] at h
    rw [dialing_iteration_succ]
    cases h1 : heapGet m oid with
    | none => simp only [h1] at h; exact Except.noConfusion h
    | some a =>
      simp only [h1] at h ⊢
      cases h2 : alGet m._dial_bcklink a._id with
      | none =>
        simp only [h2, Except.ok.injEq] at h
        simp only [h2]
        exact congrArg some h
      | some dialing =>
        simp only [h2] at h ⊢
        cases h3 : m._get_chan_by_uniqueid dialing with
        | error e => simp only [h3] at h; exact Except.noConfusion h
        | ok aOid =>
          simp only [h3] at h
          have h3x : alGet m._channels_by_uniqueid dialing = some aOid := by
            unfold ChannelManager._get_chan_by_uniqueid at h3
            cases hx : alGet m._channels_by_uniqueid dialing with
            | none => rw [hx] at h3; simp at h3
            | some v => rw [hx] at h3; simp only [Except.ok.injEq] at h3; rw [h3]
          simp only [h3x]
          cases h4 : heapGet m aOid with
          | none => simp only [h4] at h; exact Except.noConfusion h
          | some a2 =>
            simp only [h4] at h
            cases h5 : a2._prev with
            | none =>
              simp only [h5] at h
              by_cases h6 : (alGet m._dial_bcklink a2._id).isSome = true
              · simp only [if_pos h6] at h; exact Except.noConfusion h
              · simp only [if_neg h6] at h
                simp only [Except.ok.injEq] at h
                have h6x : alGet m._dial_bcklink a2._id = none := by
                  cases hy : alGet m._dial_bcklink a2._id with
                  | none => rfl
                  | some w => rw [hy] at h6; simp at h6
                have hrw : rewind_prev (k + 1 + 1) m aOid = some aOid := by
                  rw [rewind_prev_succ]
                  simp only [h4, h5]
                simp only [hrw]
                rw [dialing_iteration_succ]
                simp only [h4, h6x]
                exact congrArg some h
            | some p =>
              simp only [h5] at h
              cases h7 : heapGet m p with
              | none => simp only [h7] at h; exact Except.noConfusion h
              | some cp =>
                simp only [h7] at h
                by_cases h8 : cp._prev.isSome = true
                · simp only [if_pos h8] at h; exact Except.noConfusion h
                · simp only [if_neg h8] at h
                  have h8x : cp._prev = none := by
                    cases hy : cp._prev with
                    | none => rfl
                    | some w => rw [hy] at h8; simp at h8
                  have hrw : rewind_prev (k + 1 + 1) m aOid = some p := by
                    rw [rewind_prev_succ]
                    simp only [h4, h5]
                    rw [rewind_prev_succ]
                    simp only [h7, h8x]
                  simp only [hrw]
                  exact ih p h

/-- Witness for C9: a channel with no dial entry is its own dialing channel,
and the iteration agrees. -/
theorem C9_get_dialing_refines_witness :
    Channel.get_dialing_channel 1 c8_state 0 = .ok 0 ∧
    dialing_iteration 2 c8_state 0 = some 0 :=
  ⟨by decide, C9_get_dialing_refines 1 c8_state 0 0 (by decide)⟩
